import Mathlib

/-!
Verification of the job-tracking / download-history core of the
youtube-mp3-downloader Flask application (src/app.py).

The Python source is shallowly embedded: pure helpers become Lean
functions, the module-level mutable dictionaries (the job registry
`download_progress`, the history list `download_history`, the download
directory) become explicit state threaded through the handler and
job-runner functions, and fallible OS / library calls are modelled with
`Except String` values.  Machine floats only occur as yt-dlp progress
percentages and as the intermediate value of `format_file_size`; both are
modelled with `ℚ` (every concrete value proved about below is exactly
representable, so no rounding discrepancy with IEEE doubles arises).
-/

namespace YtMp3

/-- Python `f"{n:02d}"` for a nonnegative integer: zero-pad to width 2. -/
def pad2 (n : Nat) : String :=
  if n < 10 then "0" ++ toString n else toString n

/-- The loop of `format_file_size` (src/app.py lines 410-414):
`while size_bytes >= 1024 and i < len(size_names) - 1: size_bytes /= 1024.0; i += 1`.
The running float value is always `size_bytes / 1024 ^ i`, which is exactly
representable in an IEEE double for the sizes at issue, so it is modelled
as the exact fraction `(numerator, denominator)`; dividing by 1024 scales
the denominator.  The guard `i < 3` bounds the loop to three iterations,
so structural fuel 3 is exact (the fuel never runs out before the guard
turns false). -/
def fsLoop : Nat → Nat × Nat → Nat → (Nat × Nat) × Nat
  | 0, q, i => (q, i)
  | fuel + 1, (n, d), i =>
    if 1024 * d ≤ n ∧ i < 3 then fsLoop fuel (n, d * 1024) (i + 1) else ((n, d), i)

/-- Python `f"{q:.2f}"` for the nonnegative fraction `n / d` (`d > 0`):
round to two decimal places and print with exactly two fractional digits.
`(n * 100 * 2 + d) / (d * 2)` is `⌊n * 100 / d + 1 / 2⌋`.  (CPython rounds
ties to even; every value this development evaluates is an exact multiple
of 1/100, so no tie occurs and half-up rounding agrees.) -/
def twoDecimals (n d : Nat) : String :=
  let m := (n * 100 * 2 + d) / (d * 2)
  toString (m / 100) ++ "." ++ pad2 (m % 100)

/-- src/app.py `format_file_size` (lines 405-416). -/
def format_file_size (size_bytes : Nat) : String :=
  if size_bytes = 0 then "0 Bytes"
  else
    let size_names := ["Bytes", "KB", "MB", "GB"]
    let qi := fsLoop 3 (size_bytes, 1) 0
    twoDecimals qi.1.1 qi.1.2 ++ " " ++ size_names.getD qi.2 ""

/-- src/app.py `format_duration` (lines 418-430).  `if not seconds` is
Python truthiness: the integer 0 takes the first branch. -/
def format_duration (seconds : Nat) : String :=
  if seconds = 0 then "00:00"
  else
    let hours := seconds / 3600
    let minutes := (seconds % 3600) / 60
    let secs := seconds % 60
    if hours > 0 then pad2 hours ++ ":" ++ pad2 minutes ++ ":" ++ pad2 secs
    else pad2 minutes ++ ":" ++ pad2 secs

/-! ## Data model -/

/-- One element of the persisted `download_history` list: the dict built
in `DownloadThread.run` (src/app.py lines 310-317). -/
structure HistoryEntry where
  filename : String
  title : String
  url : String
  timestamp : Nat
  duration : Nat
  file_size : Nat
deriving DecidableEq

/-- A regular file in the download folder together with the `os.stat`
data `list_downloads_internal` reads (`st_size`, `st_mtime`). -/
structure DiskFile where
  name : String
  size : Nat
  mtime : Nat
deriving DecidableEq

/-- The status strings a stored `download_progress` record can hold.
(`unknown` is only ever produced as the default of `get_progress`, never
stored, so it is not a constructor here.) -/
inductive JobStatus
  | downloading
  | completed
  | error
deriving DecidableEq

/-- A record in the `download_progress` dict.  `none` models a key that
is absent from the Python dict (the `downloading` and `error` records
carry no `title`/`duration` keys at all). -/
structure JobRecord where
  status : JobStatus
  progress : ℚ
  filename : Option String
  title : Option String
  duration : Option Nat
  error : Option String
deriving DecidableEq

/-- The module-level `download_progress` dict, as an insertion-ordered
association list (Python dicts preserve insertion order). -/
abbrev Registry := List (String × JobRecord)

/-- Dict read `download_progress.get(id)`. -/
def lookupJob (reg : Registry) (id : String) : Option JobRecord :=
  (List.find? (fun kv => kv.1 == id) reg).map (fun kv => kv.2)

/-- Dict write `download_progress[id] = r`: replace in place if the key
is present, else append (Python dicts keep the original position of an
overwritten key). -/
def setJob : Registry → String → JobRecord → Registry
  | [], id, r => [(id, r)]
  | (k, v) :: rest, id, r =>
    if k == id then (k, r) :: rest else (k, v) :: setJob rest id r

/-- The in-place field write `download_progress[id]['progress'] = p` of
`progress_hook`.  A missing key would be a Python `KeyError`; it is
unreachable in `DownloadThread.run`, which stores the initial record
before any hook can fire, and is modelled as a no-op. -/
def updateProgress : Registry → String → ℚ → Registry
  | [], _, _ => []
  | (k, v) :: rest, id, p =>
    if k == id then
      (k, ⟨v.status, p, v.filename, v.title, v.duration, v.error⟩) :: rest
    else (k, v) :: updateProgress rest id p

/-! ## History store (src/app.py lines 256-272) -/

/-- The condition of the persisted `download_history.json` file when
`load_download_history` runs: absent, present but unreadable or
malformed (`open`/`json.load` raises, with the exception text), or
readable with a parsed entry list. -/
inductive HistoryFile
  | missing
  | unreadable (msg : String)
  | parsed (entries : List HistoryEntry)

/-- src/app.py `load_download_history` (lines 256-264).  The second
component is the log output (`print(f"Error loading history: {e}")`);
every branch falls through to `return []` except a successful parse. -/
def load_download_history : HistoryFile → List HistoryEntry × List String
  | .missing => ([], [])
  | .unreadable msg => ([], ["Error loading history: " ++ msg])
  | .parsed entries => (entries, [])

/-! ## Directory scanner (src/app.py lines 361-403) -/

/-- Python `str.endswith` (the `filename.endswith('.mp3')` checks):
suffix test on the character sequence.  (`String.endsWith` exists but its
byte-position internals do not reduce in the kernel.) -/
def endswith (s suffix : String) : Bool := suffix.data.isSuffixOf s.data

/-- The linear first-match scan of `download_history` for a filename
(src/app.py lines 376-380). -/
def findHistoryEntry (history : List HistoryEntry) (filename : String) :
    Option HistoryEntry :=
  history.find? (fun entry => entry.filename == filename)

/-- The enriched listing dict built per file by `list_downloads_internal`
(src/app.py lines 382-394).  `modified_formatted` (a `time.strftime`
rendering of the mtime) is calendar formatting no claim touches and is
not modelled. -/
structure DownloadInfo where
  filename : String
  name : String
  size : Nat
  size_formatted : String
  modified : Nat
  url : String
  play_url : String
  source_url : String
  duration : Nat
  duration_formatted : String
deriving DecidableEq

/-- The per-file dict construction of `list_downloads_internal`. -/
def mkDownloadInfo (history : List HistoryEntry) (f : DiskFile) : DownloadInfo :=
  let he := findHistoryEntry history f.name
  { filename := f.name
    name := f.name.replace ".mp3" ""
    size := f.size
    size_formatted := format_file_size f.size
    modified := f.mtime
    url := "/download-file/" ++ f.name
    play_url := "/play-audio/" ++ f.name
    source_url := match he with
      | some e => e.url
      | none => ""
    duration := match he with
      | some e => e.duration
      | none => 0
    duration_formatted := match he with
      | some e => format_duration e.duration
      | none => "Unknown" }

/-- Descending-by-mtime order used by `downloads.sort(key=..., reverse=True)`. -/
def newerEq (a b : DownloadInfo) : Prop := b.modified ≤ a.modified

instance : DecidableRel newerEq := fun a b => Nat.decLe b.modified a.modified

/-- The pure core of `list_downloads_internal`: filter to `.mp3` names,
enrich each, sort newest-first (Python's stable sort is modelled by a
stable insertion sort; no claim depends on the order of ties). -/
def listDownloadsPure (files : List DiskFile) (history : List HistoryEntry) :
    List DownloadInfo :=
  ((files.filter (fun f => endswith f.name ".mp3")).map
    (mkDownloadInfo history)).insertionSort newerEq

/-- The download folder as `list_downloads_internal` sees it:
`os.path.exists` false, or `os.listdir` raising, or the entry list.
(The per-file `os.stat` sits inside a per-file try/except and its
failure merely skips the file; it is not modelled as fallible.) -/
inductive DirListing
  | absent
  | present (r : Except String (List DiskFile))

/-- src/app.py `list_downloads_internal` (lines 361-403).  An `Except.error`
result is an exception propagating to the caller: the function has no
try/except around `os.path.exists`/`os.listdir` themselves. -/
def list_downloads_internal (dir : DirListing) (history : List HistoryEntry) :
    Except String (List DownloadInfo) :=
  match dir with
  | .absent => .ok []
  | .present (.error e) => .error e
  | .present (.ok files) => .ok (listDownloadsPure files history)

/-! ## Route /download (src/app.py lines 436-470) -/

/-- The JSON bodies `download_audio` (the route handler) can return. -/
inductive DownloadResp
  /-- Any body of the shape `{'success': False, 'error': msg}` (the
  missing-URL rejection and the catch-all except branch). -/
  | errResp (msg : String)
  /-- The dedup rejection, which additionally carries `existing_file`. -/
  | duplicate (msg existing_file : String)
  /-- `{'success': True, 'download_id': id, 'message': msg}`. -/
  | started (download_id msg : String)
deriving DecidableEq

/-- src/app.py `download_audio`, the `/download` POST handler (lines
436-470).  `urlOpt = none` models a body without a `url` key
(`data.get('url')` is `None`); `if not url` also catches the empty
string.  `nowMs` is `int(time.time() * 1000)`.  The returned registry is
the handler's effect on `download_progress` (it never writes it — the
record is created by the spawned thread), and the final component is the
`DownloadThread` the handler starts, if any, as (url, download_id). -/
def download_audio_route (dir : DirListing) (history : List HistoryEntry)
    (reg : Registry) (urlOpt : Option String) (nowMs : Nat) :
    DownloadResp × Registry × Option (String × String) :=
  match urlOpt with
  | none => (.errResp "No URL provided", reg, none)
  | some url =>
    if url = "" then (.errResp "No URL provided", reg, none)
    else
      match list_downloads_internal dir history with
      | .error e => (.errResp e, reg, none)
      | .ok downloads =>
        match downloads.find? (fun d => d.source_url == url) with
        | some d =>
          (.duplicate "This video has already been downloaded!" d.filename,
            reg, none)
        | none =>
          (.started (toString nowMs) "Download started", reg,
            some (url, toString nowMs))

/-! ## Route /progress (src/app.py lines 472-480) -/

/-- The JSON body of `get_progress`: the stored record's fields with the
status rendered as its string, or the inline default dict for an unknown
id.  `none` is an absent key. -/
structure ProgressResp where
  status : String
  progress : ℚ
  filename : Option String
  title : Option String
  duration : Option Nat
  error : Option String
deriving DecidableEq

/-- The string a `JobStatus` renders to in JSON. -/
def JobStatus.statusStr : JobStatus → String
  | .downloading => "downloading"
  | .completed => "completed"
  | .error => "error"

/-- `jsonify(progress)` for a stored record. -/
def JobRecord.toResp (r : JobRecord) : ProgressResp :=
  ⟨r.status.statusStr, r.progress, r.filename, r.title, r.duration, r.error⟩

/-- The default dict of `download_progress.get(download_id, {...})`:
`{'status': 'unknown', 'progress': 0, 'filename': None, 'error': None}`. -/
def unknownResp : ProgressResp := ⟨"unknown", 0, none, none, none, none⟩

/-- src/app.py `get_progress`, the `/progress/<download_id>` handler
(lines 472-480).  The second component is the registry after the
request: `dict.get` never inserts, so it is returned unchanged. -/
def get_progress (reg : Registry) (download_id : String) :
    ProgressResp × Registry :=
  (match lookupJob reg download_id with
   | some r => r.toResp
   | none => unknownResp, reg)

/-! ## Routes /downloads and /stats (src/app.py lines 482-491, 592-606) -/

/-- The JSON bodies of `list_downloads`. -/
inductive DownloadsResp
  | ok (downloads : List DownloadInfo)
  | errResp (msg : String)
deriving DecidableEq

/-- src/app.py `list_downloads`, the `/downloads` handler (lines
482-491): its try/except turns any exception from
`list_downloads_internal` into `{'success': False, 'error': str(e)}`. -/
def list_downloads_route (dir : DirListing) (history : List HistoryEntry) :
    DownloadsResp :=
  match list_downloads_internal dir history with
  | .ok downloads => .ok downloads
  | .error e => .errResp e

/-- The `stats` object of `get_stats`. -/
structure Stats where
  total_downloads : Nat
  total_size : Nat
  total_size_formatted : String
  history_entries : Nat
deriving DecidableEq

/-- src/app.py `get_stats`, the `/stats` handler (lines 592-606).  It has
no try/except, so an exception raised by `list_downloads_internal`
propagates out of the handler — hence the `Except` result type, unlike
every other JSON route modelled here. -/
def get_stats (dir : DirListing) (history : List HistoryEntry) :
    Except String Stats :=
  match list_downloads_internal dir history with
  | .error e => .error e
  | .ok downloads =>
    .ok ⟨downloads.length,
      (downloads.map (fun d => d.size)).sum,
      format_file_size (downloads.map (fun d => d.size)).sum,
      history.length⟩

/-! ## Paths and the download folder filesystem

The file-serving and deletion handlers build exactly one path each:
`os.path.join(app.config['DOWNLOAD_FOLDER'], os.path.basename(filename))`.
The filesystem is therefore modelled as the set of regular files inside
the download folder (addressed by their single-component name) plus an
arbitrary outside world of files addressed by full path; the OS-level
operations below give the dangerous behaviour a denotation (an outside
path can be removed) so that its unreachability is a real theorem. -/

/-- posixpath.basename on a character list: everything after the last
`'/'` (Python: `p[p.rfind('/') + 1:]`). -/
def basenameL (l : List Char) : List Char :=
  (l.reverse.takeWhile (fun c => c ≠ '/')).reverse

/-- src/app.py `os.path.basename(filename)` (lines 497, 519, 569). -/
def basename (p : String) : String := ⟨basenameL p.data⟩

/-- posixpath.join for two components: an absolute second argument
discards the first; otherwise insert `'/'` unless the first part is
empty or already ends with it.  (`b.startswith('/')` is tested as the
first character being `'/'`.) -/
def pyJoin (a b : String) : String :=
  if b.data.head? = some '/' then b
  else if a.data = [] ∨ a.data.getLast? = some '/' then a ++ b
  else a ++ "/" ++ b

/-- `app.config['DOWNLOAD_FOLDER']` = `os.path.join(BASE_DIR, 'static',
'downloads')` for a representative absolute `BASE_DIR`. -/
def DOWNLOAD_FOLDER : String := "/app/static/downloads"

/-- The single path each file handler actually uses:
`filepath = os.path.join(app.config['DOWNLOAD_FOLDER'], filename)` after
`filename = os.path.basename(filename)`. -/
def route_filepath (input : String) : String :=
  pyJoin DOWNLOAD_FOLDER (basename input)

/-- Decompose a path as `DOWNLOAD_FOLDER/c` with `c` a single component
(no `'/'` inside).  Every other path is addressed as an outside path. -/
def subFolderComponent? (p : String) : Option String :=
  let pre := (DOWNLOAD_FOLDER ++ "/").data
  if pre.isPrefixOf p.data then
    let c := p.data.drop pre.length
    if c.contains '/' then none else some ⟨c⟩
  else none

/-- The components of the folder path that resolve to directories rather
than regular files: `folder/""` and `folder/"."` are the folder itself,
`folder/".."` its parent. -/
def dotNames : List String := ["", ".", ".."]

/-- The filesystem state the file handlers act on. -/
structure Fs where
  /-- Names of the regular files inside `DOWNLOAD_FOLDER`. -/
  inside : List String
  /-- Full paths of regular files outside the folder. -/
  outside : List String
deriving DecidableEq

/-- `os.path.exists` on the paths the handlers can build. -/
def os_path_exists (fs : Fs) (p : String) : Bool :=
  match subFolderComponent? p with
  | some c => fs.inside.contains c || dotNames.contains c
  | none => fs.outside.contains p

/-- `os.remove`: deletes a regular file; raises (`Except.error`) on a
directory or a missing path. -/
def os_remove (fs : Fs) (p : String) : Except String Fs :=
  match subFolderComponent? p with
  | some c =>
    if dotNames.contains c then .error ("Is a directory: " ++ p)
    else if fs.inside.contains c then .ok ⟨fs.inside.erase c, fs.outside⟩
    else .error ("No such file or directory: " ++ p)
  | none =>
    if fs.outside.contains p then .ok ⟨fs.inside, fs.outside.erase p⟩
    else .error ("No such file or directory: " ++ p)

/-- `send_file`: returns the path it streams; raises on a directory or a
missing path. -/
def os_send_file (fs : Fs) (p : String) : Except String String :=
  match subFolderComponent? p with
  | some c =>
    if dotNames.contains c then .error ("Is a directory: " ++ p)
    else if fs.inside.contains c then .ok p
    else .error ("No such file or directory: " ++ p)
  | none =>
    if fs.outside.contains p then .ok p
    else .error ("No such file or directory: " ++ p)

/-! ## Routes /download-file, /play-audio, /delete
(src/app.py lines 493-532, 566-590) -/

/-- The JSON-or-stream results of the two file-serving handlers. -/
inductive FileResp
  /-- A successful `send_file(filepath, ...)` streaming `filepath`. -/
  | file (filepath : String)
  /-- `{'success': False, 'error': msg}`. -/
  | errResp (msg : String)
deriving DecidableEq

/-- src/app.py `download_file`, the `/download-file/<filename>` handler
(lines 493-511). -/
def download_file (fs : Fs) (input : String) : FileResp :=
  let filepath := route_filepath input
  if os_path_exists fs filepath then
    match os_send_file fs filepath with
    | .ok p => .file p
    | .error e => .errResp e
  else .errResp "File not found"

/-- src/app.py `play_audio`, the `/play-audio/<filename>` handler (lines
513-532); identical path handling, inline mimetype, different
not-found message. -/
def play_audio (fs : Fs) (input : String) : FileResp :=
  let filepath := route_filepath input
  if os_path_exists fs filepath then
    match os_send_file fs filepath with
    | .ok p => .file p
    | .error e => .errResp e
  else .errResp "Audio file not found"

/-- The JSON bodies of `delete_file`. -/
inductive DeleteResp
  /-- `{'success': True, 'message': 'File deleted'}`. -/
  | deleted
  /-- `{'success': False, 'error': msg}`. -/
  | errResp (msg : String)
deriving DecidableEq

/-- The full effect of one `/delete/<filename>` request. -/
structure DeleteOut where
  resp : DeleteResp
  fs : Fs
  history : List HistoryEntry
  /-- The argument of the `save_download_history` call the handler made,
  if any — i.e. what got written to the persisted history file. -/
  saved : Option (List HistoryEntry)
deriving DecidableEq

/-- src/app.py `delete_file`, the `/delete/<filename>` handler (lines
566-590): sanitize to the base name, join, and only if the path exists
remove the file, filter the in-memory history by filename and persist
it; an `os.remove` exception is caught by the handler's try/except and
reported as `{'success': False, 'error': str(e)}`. -/
def delete_file (fs : Fs) (history : List HistoryEntry) (input : String) :
    DeleteOut :=
  let filename := basename input
  let filepath := pyJoin DOWNLOAD_FOLDER filename
  if os_path_exists fs filepath then
    match os_remove fs filepath with
    | .error e => ⟨.errResp e, fs, history, none⟩
    | .ok fs' =>
      let history' := history.filter (fun entry => entry.filename != filename)
      ⟨.deleted, fs', history', some history'⟩
  else ⟨.errResp "File not found", fs, history, none⟩

/-! ## Job runner: DownloadThread (src/app.py lines 278-359) -/

/-- One yt-dlp progress callback invocation, i.e. the dict `d` passed to
`progress_hook`.  `percent` models `d['_percent_str']`: `none` when the
key is absent, `some none` when `float()` on the stripped string raises
`ValueError`, `some (some p)` when it parses to `p` (the string-to-float
parse itself is abstracted to its result). -/
structure HookEvent where
  status : String
  percent : Option (Option ℚ)

/-- src/app.py `DownloadThread.progress_hook` (lines 339-351): a parsed
percentage overwrites the record's progress, a parse failure is
silently ignored (`except ValueError: pass`), and a `finished` signal
pins progress to 100. -/
def progress_hook (download_id : String) (d : HookEvent) (reg : Registry) :
    Registry :=
  if d.status = "downloading" then
    match d.percent with
    | none => reg
    | some none => reg
    | some (some p) => updateProgress reg download_id p
  else if d.status = "finished" then updateProgress reg download_id 100
  else reg

/-- The record stored at the start of `DownloadThread.run` (lines
287-292): `{'status': 'downloading', 'progress': 0, 'filename': None,
'error': None}`. -/
def initRecord : JobRecord := ⟨.downloading, 0, none, none, none, none⟩

/-- The dict `YouTubeDownloader.download_audio` returns (src/app.py
lines 161-219): `{'success': True, 'filename', 'title', 'duration'}` or
`{'success': False, 'error'}`.  The network fetch and conversion that
produce it are the external collaborator. -/
inductive DLResult
  | success (filename title : String) (duration : Nat)
  | failure (error : String)

/-- The terminal record `DownloadThread.run` writes for each outcome of
`download_audio`; an `Except.error` argument is an exception reaching
run's own `except Exception` clause (lines 330-337), which writes the
same shape as a reported failure. -/
def terminalRecord : Except String DLResult → JobRecord
  | .ok (.success f t d) => ⟨.completed, 100, some f, some t, some d, none⟩
  | .ok (.failure e) => ⟨.error, 0, none, none, none, some e⟩
  | .error e => ⟨.error, 0, none, none, none, some e⟩

/-- The registry after a whole `DownloadThread.run` for `download_id`:
the initial `downloading` record, then every progress hook fired during
`download_audio`, then the terminal record. -/
def runRegFinal (download_id : String) (events : List HookEvent)
    (result : Except String DLResult) (reg : Registry) : Registry :=
  setJob
    (events.foldl (fun r e => progress_hook download_id e r)
      (setJob reg download_id initRecord))
    download_id (terminalRecord result)

/-- Every intermediate registry state a `DownloadThread.run` produces, in
order: after the initial write, after each hook, after the terminal
write.  (Its last element is `runRegFinal` by `List.scanl`'s fold.) -/
def runRegTrace (download_id : String) (events : List HookEvent)
    (result : Except String DLResult) (reg : Registry) : List Registry :=
  (events.scanl (fun r e => progress_hook download_id e r)
      (setJob reg download_id initRecord)) ++
    [runRegFinal download_id events result reg]

/-- src/app.py `DownloadThread.get_file_size` (lines 353-359):
`os.path.getsize` on the joined path, 0 if it raises. -/
def get_file_size (files : List DiskFile) (filename : String) : Nat :=
  match files.find? (fun f => f.name == filename) with
  | some f => f.size
  | none => 0

/-- The module-level mutable state of src/app.py that the job runner
touches: the download folder contents, `download_history` and
`download_progress`. -/
structure AppState where
  files : List DiskFile
  history : List HistoryEntry
  progress : Registry
deriving DecidableEq

namespace DownloadThread

/-- src/app.py `DownloadThread.run` (lines 285-337) for the thread's
`download_id`/`url`: its combined effect on the registry and, on
success, the history append (lines 309-319) followed by
`save_download_history` — persisting is the in-memory list, so only the
list is tracked.  `now` is the `time.time()` timestamp of the entry.
The downloaded file itself is written by yt-dlp (external); `files` is
the folder as `get_file_size` reads it at completion time. -/
def run (download_id url : String) (events : List HookEvent)
    (result : Except String DLResult) (now : Nat) (st : AppState) : AppState :=
  { files := st.files
    history :=
      match result with
      | .ok (.success f t d) =>
        st.history ++ [⟨f, t, url, now, d, get_file_size st.files f⟩]
      | _ => st.history
    progress := runRegFinal download_id events result st.progress }

end DownloadThread

/-! ## Route /info (src/app.py lines 534-564) -/

/-- The dict `YouTubeDownloader.get_video_info` returns: it catches its
own exceptions, so the route sees either the metadata dict or
`{'success': False, 'error': msg}`. -/
inductive VideoInfoOut
  | ok (title duration_formatted thumbnail uploader : String) (view_count : Nat)
  | err (msg : String)
deriving DecidableEq

/-- The JSON bodies of the `/info` handler. -/
inductive InfoResp
  /-- `jsonify(info)` passing the collaborator's dict through. -/
  | info (out : VideoInfoOut)
  /-- The `already_downloaded: True` short-circuit. -/
  | alreadyDownloaded (title duration_formatted existing_file : String)
  /-- `{'success': False, 'error': msg}`. -/
  | errResp (msg : String)
deriving DecidableEq

/-- src/app.py `get_video_info`, the `/info` POST handler (lines
534-564): url check, dedup short-circuit against the same listing, else
the collaborator's metadata; the try/except converts any exception
(e.g. from `list_downloads_internal`) into the uniform error body. -/
def info_route (dir : DirListing) (history : List HistoryEntry)
    (urlOpt : Option String) (collab : VideoInfoOut) : InfoResp :=
  match urlOpt with
  | none => .errResp "No URL provided"
  | some url =>
    if url = "" then .errResp "No URL provided"
    else
      match list_downloads_internal dir history with
      | .error e => .errResp e
      | .ok downloads =>
        match downloads.find? (fun d => d.source_url == url) with
        | some d => .alreadyDownloaded d.name d.duration_formatted d.filename
        | none => .info collab

/-! ## Registry lemmas -/

theorem lookupJob_setJob_self (reg : Registry) (id : String) (r : JobRecord) :
    lookupJob (setJob reg id r) id = some r := by
  induction reg with
  | nil => simp [lookupJob, setJob]
  | cons kv rest ih =>
    obtain ⟨k, v⟩ := kv
    by_cases hk : k = id
    · subst hk
      simp [lookupJob, setJob]
    · simp only [setJob, beq_iff_eq, hk, if_false]
      simpa [lookupJob, hk] using ih

theorem lookupJob_setJob_ne (reg : Registry) (id id' : String) (r : JobRecord)
    (h : id ≠ id') : lookupJob (setJob reg id' r) id = lookupJob reg id := by
  have h' : ¬ (id' = id) := fun hh => h hh.symm
  induction reg with
  | nil => simp [lookupJob, setJob, h']
  | cons kv rest ih =>
    obtain ⟨k, v⟩ := kv
    by_cases hk : k = id'
    · subst hk
      simp [lookupJob, setJob, h']
    · simp only [setJob, beq_iff_eq, hk, if_false]
      by_cases hk2 : k = id
      · subst hk2
        simp [lookupJob]
      · simpa [lookupJob, hk2] using ih

theorem lookupJob_updateProgress_self (reg : Registry) (id : String) (p : ℚ) :
    lookupJob (updateProgress reg id p) id =
      (lookupJob reg id).map
        (fun r => ⟨r.status, p, r.filename, r.title, r.duration, r.error⟩) := by
  induction reg with
  | nil => simp [lookupJob, updateProgress]
  | cons kv rest ih =>
    obtain ⟨k, v⟩ := kv
    by_cases hk : k = id
    · subst hk
      simp [lookupJob, updateProgress]
    · simp only [updateProgress, beq_iff_eq, hk, if_false]
      simpa [lookupJob, hk] using ih

theorem lookupJob_updateProgress_ne (reg : Registry) (id id' : String) (p : ℚ)
    (h : id ≠ id') :
    lookupJob (updateProgress reg id' p) id = lookupJob reg id := by
  have h' : ¬ (id' = id) := fun hh => h hh.symm
  induction reg with
  | nil => simp [lookupJob, updateProgress]
  | cons kv rest ih =>
    obtain ⟨k, v⟩ := kv
    by_cases hk : k = id'
    · subst hk
      simp [lookupJob, updateProgress, h']
    · simp only [updateProgress, beq_iff_eq, hk, if_false]
      by_cases hk2 : k = id
      · subst hk2
        simp [lookupJob]
      · simpa [lookupJob, hk2] using ih

/-- A progress hook rewrites at most the progress field of its own
record: the status it maps to is unchanged. -/
theorem progress_hook_status (id : String) (d : HookEvent) (reg : Registry) :
    (lookupJob (progress_hook id d reg) id).map (fun r => r.status) =
      (lookupJob reg id).map (fun r => r.status) := by
  unfold progress_hook
  by_cases h1 : d.status = "downloading"
  · simp only [h1, if_true]
    match d.percent with
    | none => rfl
    | some none => rfl
    | some (some p) =>
      simp [lookupJob_updateProgress_self, Option.map_map]
      rfl
  · by_cases h2 : d.status = "finished"
    · simp only [h1, h2, if_false, if_true]
      simp [lookupJob_updateProgress_self, Option.map_map]
      rfl
    · simp [h1, h2]

/-- A progress hook for another thread's id leaves this id's record
untouched. -/
theorem progress_hook_ne (id id' : String) (d : HookEvent) (reg : Registry)
    (h : id ≠ id') :
    lookupJob (progress_hook id' d reg) id = lookupJob reg id := by
  unfold progress_hook
  by_cases h1 : d.status = "downloading"
  · simp only [h1, if_true]
    match d.percent with
    | none => rfl
    | some none => rfl
    | some (some p) => exact lookupJob_updateProgress_ne _ _ _ _ h
  · by_cases h2 : d.status = "finished"
    · simp only [h1, h2, if_false, if_true]
      exact lookupJob_updateProgress_ne _ _ _ _ h
    · simp [h1, h2]

/-! ## Job-runner lemmas -/

/-- Hooks fired by another thread never touch this id's record. -/
theorem foldl_hook_ne (id id' : String) (events : List HookEvent)
    (reg : Registry) (h : id ≠ id') :
    lookupJob (events.foldl (fun r e => progress_hook id' e r) reg) id =
      lookupJob reg id := by
  induction events generalizing reg with
  | nil => rfl
  | cons e es ih => rw [List.foldl_cons, ih, progress_hook_ne _ _ _ _ h]

/-- While the hooks run, the record's status stays `downloading`: the
statuses seen along the scan are all `downloading`. -/
theorem scanl_hook_statuses (id : String) (events : List HookEvent)
    (reg : Registry)
    (h : (lookupJob reg id).map (fun r => r.status) = some .downloading) :
    ((events.scanl (fun r e => progress_hook id e r) reg).map
        (fun r => (lookupJob r id).map (fun rec => rec.status))) =
      List.replicate (events.length + 1) (some .downloading) := by
  induction events generalizing reg with
  | nil => simp [h]
  | cons e es ih =>
    rw [List.scanl_cons]
    have h2 : (lookupJob (progress_hook id e reg) id).map
        (fun r => r.status) = some .downloading := by
      rw [progress_hook_status]
      exact h
    simp only [List.singleton_append, List.map_cons, h,
      List.length_cons, List.replicate_succ]
    rw [ih _ h2, List.replicate_succ]

/-- The status of the terminal record, by outcome. -/
def terminalStatus : Except String DLResult → JobStatus
  | .ok (.success _ _ _) => .completed
  | .ok (.failure _) => .error
  | .error _ => .error

theorem terminalRecord_status (result : Except String DLResult) :
    (terminalRecord result).status = terminalStatus result := by
  match result with
  | .ok (.success f t d) => rfl
  | .ok (.failure e) => rfl
  | .error e => rfl

/-! ## Claims -/

/-- Claim C9: the pure formatters satisfy the spec's reference values:
format_duration(3725) = "01:02:05", format_duration(0) = "00:00", and
format_file_size(1536) = "1.50 KB". -/
theorem C9_formatter_reference_values :
    format_duration 3725 = "01:02:05" ∧ format_duration 0 = "00:00" ∧
      format_file_size 1536 = "1.50 KB" := by
  refine ⟨by decide, by decide, by decide⟩

/-- Claim C7: load_download_history returns the empty collection when the
persisted file is missing; when the file is unreadable or malformed it
logs the failure and still returns the empty collection.  It is a total
function of the file condition, so no case raises to the caller. -/
theorem C7_load_history_never_fatal :
    load_download_history .missing = ([], []) ∧
      ∀ msg, (load_download_history (.unreadable msg)).1 = [] ∧
        (load_download_history (.unreadable msg)).2 =
          ["Error loading history: " ++ msg] := by
  exact ⟨rfl, fun msg => ⟨rfl, rfl⟩⟩

/-- Claim C8: for a job id not present in the registry, GET /progress
returns the status-"unknown" record (progress 0, filename and error
absent) and hands the registry back unmodified; the handler is a total
function, so it never raises. -/
theorem C8_progress_unknown_id (reg : Registry) (download_id : String)
    (h : lookupJob reg download_id = none) :
    get_progress reg download_id = (unknownResp, reg) := by
  simp [get_progress, h]

theorem C8_progress_unknown_id_witness :
    lookupJob [("1", initRecord)] "2" = none ∧
      get_progress [("1", initRecord)] "2" =
        (unknownResp, [("1", initRecord)]) :=
  ⟨by decide, C8_progress_unknown_id [("1", initRecord)] "2" (by decide)⟩

/-- Claim C10: when a job fails (the collaborator reports failure, or an
exception reaches run's except clause), the registry record is
overwritten with status error, progress 0 and filename None, whatever
progress the hooks had reported before (third conjunct: a hook that
parsed p had set progress to p), so progress is not non-decreasing
across the transition to error. -/
theorem C10_error_discards_progress :
    ∀ (st : AppState) (download_id url msg : String) (now : Nat)
      (events : List HookEvent) (p : ℚ),
      lookupJob (DownloadThread.run download_id url events
          (.ok (.failure msg)) now st).progress download_id =
        some ⟨.error, 0, none, none, none, some msg⟩ ∧
      lookupJob (DownloadThread.run download_id url events
          (.error msg) now st).progress download_id =
        some ⟨.error, 0, none, none, none, some msg⟩ ∧
      lookupJob
          (List.foldl (fun r e => progress_hook download_id e r)
            (setJob st.progress download_id initRecord)
            [⟨"downloading", some (some p)⟩]) download_id =
        some ⟨.downloading, p, none, none, none, none⟩ := by
  intro st id url msg now events p
  refine ⟨?_, ?_, ?_⟩
  · show lookupJob (runRegFinal id events (.ok (.failure msg)) st.progress) id = _
    unfold runRegFinal
    rw [lookupJob_setJob_self]
    rfl
  · show lookupJob (runRegFinal id events (.error msg) st.progress) id = _
    unfold runRegFinal
    rw [lookupJob_setJob_self]
    rfl
  · show lookupJob (progress_hook id ⟨"downloading", some (some p)⟩
        (setJob st.progress id initRecord)) id = _
    unfold progress_hook
    simp only [if_true]
    rw [lookupJob_updateProgress_self, lookupJob_setJob_self]
    rfl

/-- Claim C2: along a whole DownloadThread.run, the job record's status
is downloading at the initial write and after every progress hook, and
flips exactly once, at the final write, to completed (success) or error
(failure or exception) — so the only transitions are
downloading → completed and downloading → error, with the terminal
status as the very last write of the run.  Second part: a run for any
other job id never touches this record, so (ids being unique per
thread) nothing mutates a record after its run ends. -/
theorem C2_status_transitions :
    ∀ (download_id : String) (events : List HookEvent)
      (result : Except String DLResult) (reg : Registry),
      ((runRegTrace download_id events result reg).map
          (fun r => (lookupJob r download_id).map (fun rec => rec.status))) =
        List.replicate (events.length + 1) (some .downloading) ++
          [some (terminalStatus result)] ∧
      ∀ (id' : String) (events' : List HookEvent)
        (result' : Except String DLResult) (reg' : Registry),
        download_id ≠ id' →
        lookupJob (runRegFinal id' events' result' reg') download_id =
          lookupJob reg' download_id := by
  intro id events result reg
  constructor
  · unfold runRegTrace
    rw [List.map_append]
    have h0 : (lookupJob (setJob reg id initRecord) id).map
        (fun r => r.status) = some .downloading := by
      rw [lookupJob_setJob_self]
      rfl
    rw [scanl_hook_statuses id events _ h0]
    have h1 : lookupJob (runRegFinal id events result reg) id =
        some (terminalRecord result) := by
      unfold runRegFinal
      exact lookupJob_setJob_self _ _ _
    simp [h1, terminalRecord_status]
  · intro id' events' result' reg' hne
    unfold runRegFinal
    rw [lookupJob_setJob_ne _ _ _ _ hne, foldl_hook_ne _ _ _ _ hne,
      lookupJob_setJob_ne _ _ _ _ hne]

theorem C2_status_transitions_witness :
    ((runRegTrace "1" [⟨"downloading", some (some 50)⟩] (.ok (.failure "x"))
        []).map (fun r => (lookupJob r "1").map (fun rec => rec.status))) =
      List.replicate 2 (some .downloading) ++ [some .error] ∧
    lookupJob (runRegFinal "2" [] (.ok (.failure "y")) [("1", initRecord)])
        "1" = lookupJob [("1", initRecord)] "1" :=
  ⟨(C2_status_transitions "1" [⟨"downloading", some (some 50)⟩]
      (.ok (.failure "x")) []).1,
    (C2_status_transitions "1" [⟨"downloading", some (some 50)⟩]
      (.ok (.failure "x")) []).2 "2" [] (.ok (.failure "y"))
      [("1", initRecord)] (by decide)⟩

/-! ## Path lemmas -/

/-- The base name of any client string contains no path separator. -/
theorem slash_not_mem_basename (p : String) : '/' ∉ (basename p).data := by
  intro hmem
  have h1 : '/' ∈ p.data.reverse.takeWhile (fun c => c ≠ '/') := by
    simpa [basename, basenameL] using hmem
  have h2 := List.mem_takeWhile_imp h1
  simp at h2

/-- The path each file handler builds is literally the storage directory,
a separator, and the base name of the client input. -/
theorem route_filepath_eq (input : String) :
    route_filepath input = DOWNLOAD_FOLDER ++ "/" ++ basename input := by
  unfold route_filepath pyJoin
  have h1 : (basename input).data.head? ≠ some '/' := by
    intro hh
    exact slash_not_mem_basename input (List.mem_of_mem_head? hh)
  have h2 : ¬ (DOWNLOAD_FOLDER.data = [] ∨
      DOWNLOAD_FOLDER.data.getLast? = some '/') := by decide
  rw [if_neg h1, if_neg h2]

/-- Decomposing the handler path recovers exactly the base name: the
path denotes the folder's child of that name and nothing else. -/
theorem subFolderComponent_route (input : String) :
    subFolderComponent? (route_filepath input) = some (basename input) := by
  rw [route_filepath_eq]
  unfold subFolderComponent?
  have hdata : (DOWNLOAD_FOLDER ++ "/" ++ basename input).data =
      (DOWNLOAD_FOLDER ++ "/").data ++ (basename input).data := by
    rw [← String.data_append]
  have hpre : (DOWNLOAD_FOLDER ++ "/").data.isPrefixOf
      ((DOWNLOAD_FOLDER ++ "/").data ++ (basename input).data) = true := by
    rw [List.isPrefixOf_iff_prefix]
    exact List.prefix_append _ _
  have hcon : (basename input).data.contains '/' = false := by
    simp [slash_not_mem_basename input]
  simp only [hdata, hpre, if_true, List.drop_left, hcon, Bool.false_eq_true,
    if_false]

/-- Claim C5: for every filename string a client sends to the
file-serving or deletion endpoints, the path used is the storage
directory joined with the base name of the input — a single,
separator-free component under the directory — so deletion never
removes a file outside the storage directory and both serving handlers
only ever stream files inside it. -/
theorem C5_no_path_traversal :
    ∀ (input : String) (fs : Fs) (history : List HistoryEntry),
      route_filepath input = DOWNLOAD_FOLDER ++ "/" ++ basename input ∧
      '/' ∉ (basename input).data ∧
      (delete_file fs history input).fs.outside = fs.outside ∧
      (∀ p, download_file fs input = .file p →
        ∃ c, c ∈ fs.inside ∧ p = DOWNLOAD_FOLDER ++ "/" ++ c) ∧
      (∀ p, play_audio fs input = .file p →
        ∃ c, c ∈ fs.inside ∧ p = DOWNLOAD_FOLDER ++ "/" ++ c) := by
  intro input fs history
  have hsub : subFolderComponent? (pyJoin DOWNLOAD_FOLDER (basename input)) =
      some (basename input) := subFolderComponent_route input
  have hpath : pyJoin DOWNLOAD_FOLDER (basename input) =
      DOWNLOAD_FOLDER ++ "/" ++ basename input := route_filepath_eq input
  refine ⟨route_filepath_eq input, slash_not_mem_basename input, ?_, ?_, ?_⟩
  · unfold delete_file os_path_exists os_remove
    simp only [hsub]
    by_cases hd : basename input ∈ dotNames
    · simp [hd]
    · by_cases hi : basename input ∈ fs.inside
      · simp [hd, hi]
      · simp [hd, hi]
  · intro p hp
    unfold download_file os_path_exists os_send_file route_filepath at hp
    simp only [hsub] at hp
    by_cases hd : basename input ∈ dotNames
    · simp [hd] at hp
    · by_cases hi : basename input ∈ fs.inside
      · simp [hd, hi] at hp
        exact ⟨basename input, hi, by rw [← hp, hpath]⟩
      · simp [hd, hi] at hp
  · intro p hp
    unfold play_audio os_path_exists os_send_file route_filepath at hp
    simp only [hsub] at hp
    by_cases hd : basename input ∈ dotNames
    · simp [hd] at hp
    · by_cases hi : basename input ∈ fs.inside
      · simp [hd, hi] at hp
        exact ⟨basename input, hi, by rw [← hp, hpath]⟩
      · simp [hd, hi] at hp

theorem C5_no_path_traversal_witness :
    (delete_file ⟨["song.mp3"], ["/etc/passwd"]⟩ []
        "../../etc/passwd").fs.outside = ["/etc/passwd"] ∧
      (∃ c, c ∈ (["song.mp3"] : List String) ∧
        DOWNLOAD_FOLDER ++ "/song.mp3" = DOWNLOAD_FOLDER ++ "/" ++ c) :=
  ⟨(C5_no_path_traversal "../../etc/passwd" ⟨["song.mp3"], ["/etc/passwd"]⟩
      []).2.2.1,
    (C5_no_path_traversal "song.mp3" ⟨["song.mp3"], ["/etc/passwd"]⟩
      []).2.2.2.1 (DOWNLOAD_FOLDER ++ "/song.mp3") (by decide)⟩

/-- Claim C6: deleting a filename whose base name is not among the
files in the storage directory (and is a real name, not the
directory-denoting components "", "." or "..") returns the
File-not-found error body and leaves the filesystem, the in-memory
history and the persisted history file (no save call) unchanged. -/
theorem C6_delete_missing_file (fs : Fs) (history : List HistoryEntry)
    (input : String) (h1 : basename input ∉ fs.inside)
    (h2 : basename input ∉ dotNames) :
    delete_file fs history input =
      ⟨.errResp "File not found", fs, history, none⟩ := by
  have hsub : subFolderComponent? (pyJoin DOWNLOAD_FOLDER (basename input)) =
      some (basename input) := subFolderComponent_route input
  unfold delete_file os_path_exists
  simp only [hsub]
  simp [h1, h2]

theorem C6_delete_missing_file_witness :
    basename "b.mp3" ∉ (["a.mp3"] : List String) ∧
      basename "b.mp3" ∉ dotNames ∧
      delete_file ⟨["a.mp3"], ["/etc/passwd"]⟩
          [⟨"a.mp3", "a", "urlA", 0, 10, 5⟩] "b.mp3" =
        ⟨.errResp "File not found", ⟨["a.mp3"], ["/etc/passwd"]⟩,
          [⟨"a.mp3", "a", "urlA", 0, 10, 5⟩], none⟩ :=
  ⟨by decide, by decide,
    C6_delete_missing_file ⟨["a.mp3"], ["/etc/passwd"]⟩
      [⟨"a.mp3", "a", "urlA", 0, 10, 5⟩] "b.mp3" (by decide) (by decide)⟩

/-- Claim C4 counterexample: completion only ever appends to the
history.  Starting from a reachable state with a stale entry for
"a.mp3" (same title downloaded earlier under a different URL, file since
removed from disk outside the app — the spec's ownership rule tolerates
exactly this desynchronisation, and with the file gone the dedup check
does not block the resubmission), a job completing with filename
"a.mp3" leaves TWO history entries with the job's reported filename,
not exactly one. -/
theorem C4_completed_history_counterexample :
    lookupJob (DownloadThread.run "1" "urlU" []
        (.ok (.success "a.mp3" "a" 10)) 50
        ⟨[], [⟨"a.mp3", "a", "urlV", 0, 10, 5⟩], []⟩).progress "1" =
      some ⟨.completed, 100, some "a.mp3", some "a", some 10, none⟩ ∧
    ((DownloadThread.run "1" "urlU" [] (.ok (.success "a.mp3" "a" 10)) 50
        ⟨[], [⟨"a.mp3", "a", "urlV", 0, 10, 5⟩], []⟩).history.filter
      (fun e => e.filename == "a.mp3")).length = 2 := by
  exact ⟨by decide, by decide⟩

/-- Claim C4 (amended): a completed job appends exactly one entry with
the job's reported filename to the History Store — the matching count
rises by exactly one, so it is exactly one precisely when no entry with
that filename pre-existed (prior matching entries are neither removed
nor deduplicated). -/
theorem C4_completed_history_appends_one :
    ∀ (st : AppState) (download_id url f t : String) (d now : Nat)
      (events : List HookEvent),
      ((DownloadThread.run download_id url events (.ok (.success f t d)) now
          st).history.filter (fun e => e.filename == f)).length =
        (st.history.filter (fun e => e.filename == f)).length + 1 := by
  intro st download_id url f t d now events
  simp [DownloadThread.run, List.filter_append]

/-- Claim C3 counterexample: the /stats handler has no try/except: when
the directory listing fails (e.g. os.listdir raising), the exception
propagates out of the handler as a transport-level failure instead of
being converted to a success:false JSON body. -/
theorem C3_stats_propagates_counterexample :
    get_stats (.present (.error "boom")) [] = .error "boom" := rfl

/-- Claim C3 (amended): the handlers /download, /downloads, /info,
/delete and /download-file wrap their bodies in try/except and convert
any failure arising inside into the uniform success:false, error:msg
JSON body (shown here for a failing directory listing and for os.remove
and send_file raising on the dot path); /progress is a total lookup
that cannot fail; but /stats has no try/except and propagates body
failures. -/
theorem C3_handlers_catch_failures :
    (∀ (e : String) (history : List HistoryEntry) (reg : Registry)
      (url : String) (nowMs : Nat), url ≠ "" →
      download_audio_route (.present (.error e)) history reg (some url)
          nowMs = (.errResp e, reg, none)) ∧
    (∀ (e : String) (history : List HistoryEntry),
      list_downloads_route (.present (.error e)) history = .errResp e) ∧
    (∀ (e url : String) (history : List HistoryEntry)
      (collab : VideoInfoOut), url ≠ "" →
      info_route (.present (.error e)) history (some url) collab =
        .errResp e) ∧
    (∀ (fs : Fs) (history : List HistoryEntry),
      (delete_file fs history "..").resp =
        .errResp ("Is a directory: " ++ pyJoin DOWNLOAD_FOLDER "..")) ∧
    (∀ fs : Fs, download_file fs ".." =
      .errResp ("Is a directory: " ++ pyJoin DOWNLOAD_FOLDER "..")) ∧
    (∀ (reg : Registry) (id : String), (get_progress reg id).2 = reg) ∧
    (∀ (e : String) (history : List HistoryEntry),
      get_stats (.present (.error e)) history = .error e) := by
  have hb : basename ".." = ".." := by decide
  have hsub : subFolderComponent? (pyJoin DOWNLOAD_FOLDER "..") =
      some ".." := by decide
  refine ⟨?_, ?_, ?_, ?_, ?_, ?_, ?_⟩
  · intro e history reg url nowMs hne
    show (if url = "" then _ else _) = _
    rw [if_neg hne]
  · intro e history
    rfl
  · intro e url history collab hne
    show (if url = "" then _ else _) = _
    rw [if_neg hne]
  · intro fs history
    unfold delete_file os_path_exists os_remove
    simp only [hb, hsub]
    simp [dotNames]
  · intro fs
    unfold download_file os_path_exists os_send_file route_filepath
    simp only [hb, hsub]
    simp [dotNames]
  · intro reg id
    rfl
  · intro e history
    rfl

theorem C3_handlers_catch_failures_witness :
    download_audio_route (.present (.error "boom")) [] [] (some "u") 0 =
        (.errResp "boom", [], none) ∧
      info_route (.present (.error "boom")) [] (some "u") (.err "x") =
        .errResp "boom" :=
  ⟨C3_handlers_catch_failures.1 "boom" [] [] "u" 0 (by decide),
    C3_handlers_catch_failures.2.2.1 "boom" "u" [] (.err "x") (by decide)⟩

/-! ## Listing lemmas -/

/-- Every .mp3 file on disk yields its enriched record in the listing
(the sort is a permutation, so membership survives). -/
theorem mem_listDownloadsPure (files : List DiskFile)
    (history : List HistoryEntry) (df : DiskFile) (hf : df ∈ files)
    (hmp3 : endswith df.name ".mp3" = true) :
    mkDownloadInfo history df ∈ listDownloadsPure files history := by
  unfold listDownloadsPure
  rw [List.mem_insertionSort]
  exact List.mem_map_of_mem _ (List.mem_filter.mpr ⟨hf, hmp3⟩)

/-- Conversely, every listed record is the enrichment of some .mp3 file
on disk. -/
theorem listDownloadsPure_mem (files : List DiskFile)
    (history : List HistoryEntry) (d : DownloadInfo)
    (hd : d ∈ listDownloadsPure files history) :
    ∃ df, df ∈ files ∧ endswith df.name ".mp3" = true ∧
      d = mkDownloadInfo history df := by
  unfold listDownloadsPure at hd
  rw [List.mem_insertionSort] at hd
  obtain ⟨df, hdf, hmk⟩ := List.mem_map.mp hd
  have hfil := List.mem_filter.mp hdf
  exact ⟨df, hfil.1, hfil.2, hmk.symm⟩

/-- Claim C1 counterexample: the claim as frozen is false.  Completion
appends history entries unconditionally (see the C4 counterexample), so
a state is reachable in which a stale entry for a.mp3 under urlV
precedes the completed urlU job's entry for the same filename (download
urlV with title "a", then urlU — a different URL string for a
same-titled video, which the URL-string dedup does not block —
reproducing a.mp3).  Resubmitting urlU then meets every premise of the
claim: a prior job for urlU completed (second conjunct: its HistoryEntry
with url urlU is in the history) and its file a.mp3 is on disk (first
and third conjuncts) — yet the listing enriches a.mp3 with the FIRST
match's urlV, the dedup loop misses, and the handler returns started
and launches a new DownloadThread instead of the duplicate error. -/
theorem C1_duplicate_submission_counterexample :
    (⟨"a.mp3", 5, 10⟩ : DiskFile) ∈ [(⟨"a.mp3", 5, 10⟩ : DiskFile)] ∧
    (⟨"a.mp3", "a", "urlU", 1, 10, 5⟩ : HistoryEntry) ∈
      ([⟨"a.mp3", "a", "urlV", 0, 10, 5⟩, ⟨"a.mp3", "a", "urlU", 1, 10, 5⟩] :
        List HistoryEntry) ∧
    endswith "a.mp3" ".mp3" = true ∧
    download_audio_route (.present (.ok [⟨"a.mp3", 5, 10⟩]))
        [⟨"a.mp3", "a", "urlV", 0, 10, 5⟩, ⟨"a.mp3", "a", "urlU", 1, 10, 5⟩]
        [] (some "urlU") 7 =
      (.started "7" "Download started", [], some ("urlU", "7")) := by
  refine ⟨by decide, by decide, by decide, by decide⟩

/-- Claim C1 (amended): when a prior job for the submitted URL has
completed — there is a history entry for the URL, that .mp3 file is on
disk, and the entry is the first history match for its filename (true
in particular whenever at most one entry per filename exists; the
counterexample above shows the dedup misses when a stale same-filename
entry with a different URL shadows it) — the /download handler answers
with the duplicate error naming an existing on-disk file whose history
entry carries the submitted URL, leaves the job registry untouched, and
starts no DownloadThread.  (URLs of started jobs are nonempty, since
the handler rejects falsy URLs before ever starting one.) -/
theorem C1_duplicate_submission_rejected
    (files : List DiskFile) (history : List HistoryEntry) (reg : Registry)
    (df : DiskFile) (entry : HistoryEntry) (url : String) (nowMs : Nat)
    (hf : df ∈ files) (hmp3 : endswith df.name ".mp3" = true)
    (hfind : findHistoryEntry history df.name = some entry)
    (hurl : entry.url = url) (hne : url ≠ "") :
    ∃ g entry',
      download_audio_route (.present (.ok files)) history reg (some url)
          nowMs =
        (.duplicate "This video has already been downloaded!" g, reg,
          none) ∧
      entry' ∈ history ∧ entry'.filename = g ∧ entry'.url = url ∧
      ∃ df', df' ∈ files ∧ df'.name = g ∧ endswith g ".mp3" = true := by
  have hmem := mem_listDownloadsPure files history df hf hmp3
  have hsrc : (mkDownloadInfo history df).source_url = url := by
    simp [mkDownloadInfo, hfind, hurl]
  have hsome : ((listDownloadsPure files history).find?
      (fun d => d.source_url == url)).isSome := by
    rw [List.find?_isSome]
    exact ⟨mkDownloadInfo history df, hmem, by simp [hsrc]⟩
  obtain ⟨d, hd⟩ := Option.isSome_iff_exists.mp hsome
  have hdmem : d ∈ listDownloadsPure files history :=
    List.mem_of_find?_eq_some hd
  have hdsrc : d.source_url = url := by
    have := List.find?_some hd
    simpa using this
  obtain ⟨df', hdf', hdf'mp3, hdeq⟩ :=
    listDownloadsPure_mem files history d hdmem
  subst hdeq
  cases hfe : findHistoryEntry history df'.name with
  | none =>
    exfalso
    apply hne
    rw [← hdsrc]
    simp [mkDownloadInfo, hfe]
  | some entry' =>
    have he'mem : entry' ∈ history := List.mem_of_find?_eq_some hfe
    have he'fn : entry'.filename = df'.name := by
      have := List.find?_some hfe
      simpa [findHistoryEntry] using this
    have he'url : entry'.url = url := by
      rw [← hdsrc]
      simp [mkDownloadInfo, hfe]
    refine ⟨df'.name, entry', ?_, he'mem, he'fn, he'url, df', hdf', rfl,
      hdf'mp3⟩
    show (if url = "" then _ else _) = _
    rw [if_neg hne]
    show (match (listDownloadsPure files history).find?
        (fun d => d.source_url == url) with
      | some d =>
        (DownloadResp.duplicate "This video has already been downloaded!"
          d.filename, reg, none)
      | none =>
        (DownloadResp.started (toString nowMs) "Download started", reg,
          some (url, toString nowMs))) = _
    rw [hd]
    rfl

theorem C1_duplicate_submission_rejected_witness :
    ∃ g entry',
      download_audio_route
          (.present (.ok [⟨"a.mp3", 5, 10⟩]))
          [⟨"a.mp3", "a", "urlA", 0, 10, 5⟩] [] (some "urlA") 7 =
        (.duplicate "This video has already been downloaded!" g, [],
          none) ∧
      entry' ∈ [(⟨"a.mp3", "a", "urlA", 0, 10, 5⟩ : HistoryEntry)] ∧
      entry'.filename = g ∧ entry'.url = "urlA" ∧
      ∃ df', df' ∈ [(⟨"a.mp3", 5, 10⟩ : DiskFile)] ∧ df'.name = g ∧
        endswith g ".mp3" = true :=
  C1_duplicate_submission_rejected [⟨"a.mp3", 5, 10⟩]
    [⟨"a.mp3", "a", "urlA", 0, 10, 5⟩] [] ⟨"a.mp3", 5, 10⟩
    ⟨"a.mp3", "a", "urlA", 0, 10, 5⟩ "urlA" 7 (by decide) (by decide)
    (by decide) (by decide) (by decide)

end YtMp3
